import Mathlib

/-!
# traefik-exporter: the scrape-to-metric translation engine

A shallow embedding of `traefik_exporter.go`: the package-level gauges and the two
label-keyed gauge maps become an explicit record `Globals`; `scrape`, `Collect` and
`Describe` become functions passing that record along.  The HTTP transport and the JSON
decoder are collaborators of the program, so what they hand back is an input
(`GetResult`).  The order in which a Go `range` visits a map is unspecified, so it is an
input as well (`RangeOrder`).
-/

namespace TraefikExporter

/-! ## Values and instruments -/

/-- A Go `float64`, by its IEEE-754 binary64 bit pattern (what a Prometheus gauge stores).
The exporter never computes with these numbers, it only stores and copies them. -/
structure Float64 where
  bits : Nat
deriving DecidableEq, Repr

/-- The constant `0` of `Set(0)`: positive zero. -/
def Float64.zero : Float64 := ⟨0⟩

/-- The constant `1` of `Set(1)`. -/
def Float64.one : Float64 := ⟨0x3FF0000000000000⟩

/-- A `prometheus.Desc`: fully-qualified name, help text and constant labels. -/
structure Desc where
  fqName : String
  help : String
  constLabels : List (String × String)
deriving DecidableEq, Repr

/-- A `prometheus.Gauge`: an immutable descriptor and a mutable value. -/
structure Gauge where
  desc : Desc
  val : Float64
deriving DecidableEq, Repr

/-- The method `Gauge.Set`: overwrite the value, keep the descriptor. -/
def Gauge.Set (g : Gauge) (v : Float64) : Gauge := { g with val := v }

/-- The method `Gauge.Desc`. -/
def Gauge.Desc (g : Gauge) : Desc := g.desc

/-- The constant `namespace` of the source. -/
def metricNamespace : String := "traefik"

/-- The library function `prometheus.BuildFQName`: the non-empty parts joined by `_`,
and the empty string when `name` is empty. -/
def BuildFQName (ns subsystem name : String) : String :=
  if name = "" then ""
  else if ns ≠ "" ∧ subsystem ≠ "" then ns ++ "_" ++ subsystem ++ "_" ++ name
  else if ns ≠ "" then ns ++ "_" ++ name
  else if subsystem ≠ "" then subsystem ++ "_" ++ name
  else name

/-- The function `newGauge`: a fresh gauge in the `traefik` namespace; a fresh gauge
reads zero. -/
def newGauge (metricName docString : String) (constLabels : List (String × String)) : Gauge :=
  { desc := { fqName := BuildFQName metricNamespace "" metricName,
              help := docString,
              constLabels := constLabels },
    val := Float64.zero }

/-! ## Go maps keyed by strings -/

/-- Entry update behind `m[k] = v`: overwrite the entry of `k`, or add one. -/
def setEntries {α : Type} (k : String) (v : α) : List (String × α) → List (String × α)
  | [] => [(k, v)]
  | e :: t => if e.1 = k then (k, v) :: t else e :: setEntries k v t

/-- A Go `map[string]α`: key/value pairs with pairwise distinct keys.  The order of
`entries` has no meaning: a `range` visits them in an order of its own. -/
structure GoMap (α : Type) where
  entries : List (String × α)
  nodup : (entries.map Prod.fst).Nodup

namespace GoMap

variable {α : Type}

/-- The empty map literal `map[string]α{}`. -/
def empty : GoMap α := ⟨[], List.nodup_nil⟩

/-- The key list of the map. -/
def keys (m : GoMap α) : List String := m.entries.map Prod.fst

/-- The lookup `v, ok := m[k]`. -/
def get? (m : GoMap α) (k : String) : Option α := m.entries.lookup k

/-- The assignment `m[k] = v`. -/
def set (m : GoMap α) (k : String) (v : α) : GoMap α :=
  { entries := setEntries k v m.entries,
    nodup := by
      have key : ∀ l : List (String × α), (l.map Prod.fst).Nodup →
          ((setEntries k v l).map Prod.fst).Nodup ∧
          ∀ x, x ∈ (setEntries k v l).map Prod.fst → x = k ∨ x ∈ l.map Prod.fst := by
        intro l
        induction l with
        | nil => intro _; simp [setEntries]
        | cons e t ih =>
          intro h
          rw [List.map_cons, List.nodup_cons] at h
          obtain ⟨h1, h2⟩ := h
          obtain ⟨ih1, ih2⟩ := ih h2
          by_cases hk : e.1 = k
          · simp only [setEntries, hk, if_true, List.map_cons, List.nodup_cons]
            refine ⟨⟨hk ▸ h1, h2⟩, ?_⟩
            intro x hx
            rcases List.mem_cons.1 hx with hx | hx
            · exact Or.inl hx
            · exact Or.inr (List.mem_cons_of_mem _ hx)
          · simp only [setEntries, hk, if_false, List.map_cons, List.nodup_cons]
            refine ⟨⟨?_, ih1⟩, ?_⟩
            · intro hmem
              rcases ih2 _ hmem with hx | hx
              · exact hk hx
              · exact h1 hx
            · intro x hx
              rcases List.mem_cons.1 hx with hx | hx
              · exact Or.inr (hx ▸ List.mem_cons_self _ _)
              · rcases ih2 x hx with hx | hx
                · exact Or.inl hx
                · exact Or.inr (List.mem_cons_of_mem _ hx)
      exact (key m.entries m.nodup).1 }

end GoMap

/-- The order in which each `range` statement visits the entries of a map.  Go leaves it
unspecified, so it is a parameter: for the `range` at source line `site`, `visit site`
rearranges the entries, and `perm` says every entry is visited exactly once. -/
structure RangeOrder where
  visit : Nat → {α : Type} → List (String × α) → List (String × α)
  perm : ∀ (site : Nat) {α : Type} (l : List (String × α)), (visit site l).Perm l

/-- The order that visits every map in the order its entries are stored. -/
def RangeOrder.stored : RangeOrder := ⟨fun _ _ l => l, fun _ _ l => List.Perm.refl l⟩

/-- The order that visits every map backwards. -/
def RangeOrder.backwards : RangeOrder :=
  ⟨fun _ _ l => l.reverse, fun _ _ l => List.reverse_perm l⟩

/-! ## The program state and its inputs -/

/-- The struct `traefikHealth`: the decoded health record. -/
structure traefikHealth where
  UpTimeSec : Float64
  StatusCodeCount : GoMap Float64
  TotalStatusCodeCount : GoMap Float64
  TotalResponseTimeSec : Float64
  AverageResponseTimeSec : Float64

/-- The package-level variables of the exporter. -/
structure Globals where
  traefik_up : Gauge
  metric_uptime : Gauge
  metric_request_response_time_total : Gauge
  metric_request_response_time_avg : Gauge
  metric_request_status_count_current : GoMap Gauge
  metric_request_status_count_total : GoMap Gauge

/-- The `var (...)` block: the four fixed gauges and two empty maps. -/
def Globals.declared : Globals :=
  { traefik_up := newGauge "up" "Is traefik up ?" [],
    metric_uptime := newGauge "uptime" "Current Traefik uptime" [],
    metric_request_response_time_total :=
      newGauge "request_response_time_total" "Total response time of Traefik requests" [],
    metric_request_response_time_avg :=
      newGauge "request_response_time_avg" "Average response time of Traefik requests" [],
    metric_request_status_count_current := GoMap.empty,
    metric_request_status_count_total := GoMap.empty }

/-- The first `func init()`: `traefik_up.Set(0)` on the declared variables. -/
def init : Globals :=
  { Globals.declared with traefik_up := Globals.declared.traefik_up.Set Float64.zero }

/-- What `e.client.Get(e.URI)` and the JSON decoder hand back: a transport error with its
text, or a response with its status code and the outcome of `decoder.Decode(&data)` on
its body (the decoder's error text, or the decoded record). -/
inductive GetResult where
  | err (msg : String)
  | resp (StatusCode : Int) (decoded : Except String traefikHealth)

/-- A cycle that fails: a transport error, a failed decode, or a status outside 2xx. -/
def GetResult.failing : GetResult → Prop
  | .err _ => True
  | .resp _ (.error _) => True
  | .resp c (.ok _) => ¬ (200 ≤ c ∧ c < 300)

/-- A cycle that connects, answers with a 2xx status and decodes. -/
def GetResult.healthy : GetResult → Prop
  | .resp c (.ok _) => 200 ≤ c ∧ c < 300
  | _ => False

instance GetResult.decidableFailing : (get : GetResult) → Decidable get.failing
  | .err _ => isTrue trivial
  | .resp _ (.error _) => isTrue trivial
  | .resp c (.ok _) => inferInstanceAs (Decidable (¬ (200 ≤ c ∧ c < 300)))

instance GetResult.decidableHealthy : (get : GetResult) → Decidable get.healthy
  | .err _ => isFalse (fun h => h)
  | .resp _ (.error _) => isFalse (fun h => h)
  | .resp c (.ok _) => inferInstanceAs (Decidable (200 ≤ c ∧ c < 300))

/-! ## The operations -/

/-- The first `range` of `scrape` (line 173): every visited current-count gauge is set
to zero. -/
def resetCurrent (visited : List (String × Gauge)) (m : GoMap Gauge) : GoMap Gauge :=
  visited.foldl (fun acc e => acc.set e.1 (e.2.Set Float64.zero)) m

/-- The body shared by the loops at lines 176 and 184: create the gauge of `statusCode`
when the map has none, then set it to `nbr`. -/
def setLabeled (metricName : String) (m : GoMap Gauge) (statusCode : String)
    (nbr : Float64) : GoMap Gauge :=
  let m1 :=
    match m.get? statusCode with
    | some _ => m
    | none =>
      m.set statusCode
        (newGauge metricName "Number of request handled by Traefik"
          [("statusCode", statusCode)])
  match m1.get? statusCode with
  | some g => m1.set statusCode (g.Set nbr)
  | none => m1

/-- The loops at lines 176 and 184 over the visited entries of a count map. -/
def applyCounts (metricName : String) (visited : List (String × Float64))
    (m : GoMap Gauge) : GoMap Gauge :=
  visited.foldl (fun acc e => setLabeled metricName acc e.1 e.2) m

/-- The method `Exporter.scrape`: the globals afterwards and the returned error
(`none` for `nil`). -/
def scrape (ρ : RangeOrder) (get : GetResult) (s : Globals) : Globals × Option String :=
  match get with
  | .err msg => (s, some ("Can\x27t scrape Traefik: " ++ msg))
  | .resp StatusCode decoded =>
    if ¬ (StatusCode ≥ 200 ∧ StatusCode < 300) then
      (s, some ("Can\x27t scrape Traefik: status " ++ toString StatusCode))
    else
      match decoded with
      | .error e => (s, some ("Can\x27t scrape Traefik: json.Unmarshal " ++ e))
      | .ok data =>
        let current0 :=
          resetCurrent (ρ.visit 173 s.metric_request_status_count_current.entries)
            s.metric_request_status_count_current
        ({ traefik_up := s.traefik_up.Set Float64.one,
           metric_uptime := s.metric_uptime.Set data.UpTimeSec,
           metric_request_response_time_total :=
             s.metric_request_response_time_total.Set data.TotalResponseTimeSec,
           metric_request_response_time_avg :=
             s.metric_request_response_time_avg.Set data.AverageResponseTimeSec,
           metric_request_status_count_current :=
             applyCounts "request_count_current"
               (ρ.visit 176 data.StatusCodeCount.entries) current0,
           metric_request_status_count_total :=
             applyCounts "request_count_total"
               (ρ.visit 184 data.TotalStatusCodeCount.entries)
               s.metric_request_status_count_total },
         none)

/-- What one call of `Collect` leaves behind: the globals, the metrics sent on the
channel in order, and the error handed to `log.Error`, if any. -/
structure Collected where
  globals : Globals
  ch : List Gauge
  logged : Option String

/-- The method `Exporter.Collect`. -/
def Collect (ρ : RangeOrder) (get : GetResult) (s : Globals) : Collected :=
  match scrape ρ get s with
  | (s1, some err) =>
    let up := s1.traefik_up.Set Float64.zero
    { globals := { s1 with traefik_up := up }, ch := [up], logged := some err }
  | (s1, none) =>
    { globals := s1,
      ch := [s1.traefik_up, s1.metric_uptime, s1.metric_request_response_time_total,
             s1.metric_request_response_time_avg]
            ++ (ρ.visit 142 s1.metric_request_status_count_current.entries).map Prod.snd
            ++ (ρ.visit 145 s1.metric_request_status_count_total.entries).map Prod.snd,
      logged := none }

/-- The method `Exporter.Describe`: the descriptors sent on the channel, in order. -/
def Describe (ρ : RangeOrder) (s : Globals) : List Desc :=
  [s.metric_uptime.Desc, s.traefik_up.Desc, s.metric_request_response_time_total.Desc,
   s.metric_request_response_time_avg.Desc]
  ++ (ρ.visit 116 s.metric_request_status_count_current.entries).map (fun e => e.2.Desc)
  ++ (ρ.visit 119 s.metric_request_status_count_total.entries).map (fun e => e.2.Desc)

/-- The globals after a sequence of `Collect` cycles, oldest first, from `init`. -/
def run (cycles : List (RangeOrder × GetResult)) : Globals :=
  cycles.foldl (fun s c => (Collect c.1 c.2 s).globals) init

/-- The globals a healthy cycle leaves behind. -/
def afterHealthy (ρ : RangeOrder) (data : traefikHealth) (s : Globals) : Globals :=
  { traefik_up := s.traefik_up.Set Float64.one,
    metric_uptime := s.metric_uptime.Set data.UpTimeSec,
    metric_request_response_time_total :=
      s.metric_request_response_time_total.Set data.TotalResponseTimeSec,
    metric_request_response_time_avg :=
      s.metric_request_response_time_avg.Set data.AverageResponseTimeSec,
    metric_request_status_count_current :=
      applyCounts "request_count_current" (ρ.visit 176 data.StatusCodeCount.entries)
        (resetCurrent (ρ.visit 173 s.metric_request_status_count_current.entries)
          s.metric_request_status_count_current),
    metric_request_status_count_total :=
      applyCounts "request_count_total" (ρ.visit 184 data.TotalStatusCodeCount.entries)
        s.metric_request_status_count_total }

/-- Every gauge carries the descriptor it was created with: the four fixed gauges those
of the `var` block, and the gauge stored under a status code that of the `newGauge` call
that labels it with the code. -/
def Globals.Described (s : Globals) : Prop :=
  s.traefik_up.desc = Globals.declared.traefik_up.desc
  ∧ s.metric_uptime.desc = Globals.declared.metric_uptime.desc
  ∧ s.metric_request_response_time_total.desc
      = Globals.declared.metric_request_response_time_total.desc
  ∧ s.metric_request_response_time_avg.desc
      = Globals.declared.metric_request_response_time_avg.desc
  ∧ (∀ k g, s.metric_request_status_count_current.get? k = some g →
      g.desc = (newGauge "request_count_current" "Number of request handled by Traefik"
        [("statusCode", k)]).desc)
  ∧ (∀ k g, s.metric_request_status_count_total.get? k = some g →
      g.desc = (newGauge "request_count_total" "Number of request handled by Traefik"
        [("statusCode", k)]).desc)

/-! ## Sample inputs -/

/-- The number 5. -/
def five : Float64 := ⟨0x4014000000000000⟩

/-- The number 100. -/
def hundred : Float64 := ⟨0x4059000000000000⟩

/-- A health record with the given current and total counts and zero timings. -/
def sampleHealth (current total : List (String × Float64)) : traefikHealth :=
  { UpTimeSec := five,
    StatusCodeCount := current.foldl (fun m e => m.set e.1 e.2) GoMap.empty,
    TotalStatusCodeCount := total.foldl (fun m e => m.set e.1 e.2) GoMap.empty,
    TotalResponseTimeSec := hundred,
    AverageResponseTimeSec := Float64.one }

/-- A first healthy scrape: 5 requests with status 200 now, 100 in total. -/
def firstScrape : GetResult :=
  .resp 200 (.ok (sampleHealth [("200", five)] [("200", hundred)]))

/-- A later healthy scrape: one request with status 404, an empty total map. -/
def secondHealth : traefikHealth := sampleHealth [("404", Float64.one)] []

/-- An upstream answering 503 with a body that would decode. -/
def unavailable : GetResult := .resp 503 (.ok (sampleHealth [] []))

/-! ## Go maps: lookup after assignment -/

theorem lookup_setEntries_self {α : Type} (k : String) (v : α) (l : List (String × α)) :
    (setEntries k v l).lookup k = some v := by
  induction l with
  | nil => simp [setEntries, List.lookup]
  | cons e t ih =>
    obtain ⟨k1, v1⟩ := e
    by_cases hk : k1 = k
    · simp [setEntries, hk, List.lookup]
    · have hk2 : (k == k1) = false := by simpa using fun h => hk h.symm
      simp [setEntries, hk, List.lookup, hk2, ih]

theorem lookup_setEntries_ne {α : Type} {k k2 : String} (v : α) (l : List (String × α))
    (h : k2 ≠ k) : (setEntries k v l).lookup k2 = l.lookup k2 := by
  induction l with
  | nil =>
    have hk2 : (k2 == k) = false := by simpa using h
    simp [setEntries, List.lookup, hk2]
  | cons e t ih =>
    obtain ⟨k1, v1⟩ := e
    by_cases hk : k1 = k
    · subst hk
      have hk2 : (k2 == k1) = false := by simpa using h
      simp [setEntries, List.lookup, hk2]
    · simp only [setEntries, hk, if_false, List.lookup]
      rw [ih]

theorem mem_keys_setEntries {α : Type} (k x : String) (v : α) (l : List (String × α)) :
    x ∈ (setEntries k v l).map Prod.fst ↔ x = k ∨ x ∈ l.map Prod.fst := by
  induction l with
  | nil => simp [setEntries]
  | cons e t ih =>
    obtain ⟨k1, v1⟩ := e
    by_cases hk : k1 = k
    · subst hk
      simp [setEntries]
    · simp only [setEntries, hk, if_false, List.map_cons, List.mem_cons, ih]
      tauto

theorem lookup_eq_none_iff_not_mem_keys {α : Type} (k : String) (l : List (String × α)) :
    l.lookup k = none ↔ k ∉ l.map Prod.fst := by
  induction l with
  | nil => simp [List.lookup]
  | cons e t ih =>
    obtain ⟨k1, v1⟩ := e
    by_cases hk : k = k1
    · subst hk
      simp [List.lookup]
    · have hk2 : (k == k1) = false := by simpa using hk
      simp [List.lookup, hk2, ih, hk]

theorem lookup_of_mem {α : Type} {k : String} {v : α} {l : List (String × α)}
    (nd : (l.map Prod.fst).Nodup) (h : (k, v) ∈ l) : l.lookup k = some v := by
  induction l with
  | nil => simp at h
  | cons e t ih =>
    obtain ⟨k1, v1⟩ := e
    rw [List.map_cons, List.nodup_cons] at nd
    rcases List.mem_cons.1 h with h1 | h1
    · cases h1
      simp [List.lookup]
    · have hne : k ≠ k1 := by
        intro hk
        subst hk
        exact nd.1 (List.mem_map.2 ⟨(k, v), h1, rfl⟩)
      have hk2 : (k == k1) = false := by simpa using hne
      simp only [List.lookup, hk2]
      exact ih nd.2 h1

theorem mem_of_lookup {α : Type} {k : String} {v : α} {l : List (String × α)}
    (h : l.lookup k = some v) : (k, v) ∈ l := by
  induction l with
  | nil => simp [List.lookup] at h
  | cons e t ih =>
    obtain ⟨k1, v1⟩ := e
    by_cases hk : k = k1
    · subst hk
      simp [List.lookup] at h
      simp [h]
    · have hk2 : (k == k1) = false := by simpa using hk
      simp only [List.lookup, hk2] at h
      exact List.mem_cons_of_mem _ (ih h)

namespace GoMap

variable {α : Type}

theorem get?_set_self (m : GoMap α) (k : String) (v : α) : (m.set k v).get? k = some v :=
  lookup_setEntries_self k v m.entries

theorem get?_set_ne (m : GoMap α) {k k2 : String} (v : α) (h : k2 ≠ k) :
    (m.set k v).get? k2 = m.get? k2 :=
  lookup_setEntries_ne v m.entries h

theorem mem_keys_set (m : GoMap α) (k x : String) (v : α) :
    x ∈ (m.set k v).keys ↔ x = k ∨ x ∈ m.keys :=
  mem_keys_setEntries k x v m.entries

theorem get?_eq_none_iff (m : GoMap α) (k : String) : m.get? k = none ↔ k ∉ m.keys :=
  lookup_eq_none_iff_not_mem_keys k m.entries

theorem mem_keys_iff (m : GoMap α) (k : String) : k ∈ m.keys ↔ ∃ v, m.get? k = some v := by
  rw [← not_iff_not, ← get?_eq_none_iff]
  cases m.get? k <;> simp

theorem get?_of_mem (m : GoMap α) {k : String} {v : α} (h : (k, v) ∈ m.entries) :
    m.get? k = some v :=
  lookup_of_mem m.nodup h

theorem mem_of_get? (m : GoMap α) {k : String} {v : α} (h : m.get? k = some v) :
    (k, v) ∈ m.entries :=
  mem_of_lookup h

end GoMap

/-! ## The loops of `scrape` -/

/-- The gauge `setLabeled` creates for a status code the map does not know yet. -/
theorem get?_setLabeled_self (n : String) (m : GoMap Gauge) (k : String) (v : Float64) :
    (setLabeled n m k v).get? k
      = some (((m.get? k).getD
          (newGauge n "Number of request handled by Traefik" [("statusCode", k)])).Set v) := by
  unfold setLabeled
  cases h : m.get? k with
  | none => simp [GoMap.get?_set_self]
  | some g => simp [h, GoMap.get?_set_self]

theorem get?_setLabeled_ne (n : String) (m : GoMap Gauge) {k k2 : String} (v : Float64)
    (hne : k2 ≠ k) : (setLabeled n m k v).get? k2 = m.get? k2 := by
  unfold setLabeled
  cases h : m.get? k with
  | none => simp [GoMap.get?_set_self, GoMap.get?_set_ne _ _ hne]
  | some g => simp [h, GoMap.get?_set_ne _ _ hne]

theorem mem_keys_setLabeled (n : String) (m : GoMap Gauge) (k x : String) (v : Float64) :
    x ∈ (setLabeled n m k v).keys ↔ x = k ∨ x ∈ m.keys := by
  rw [GoMap.mem_keys_iff, GoMap.mem_keys_iff]
  by_cases hx : x = k
  · subst hx
    simp [get?_setLabeled_self]
  · simp [get?_setLabeled_ne n m v hx, hx]

theorem get?_applyCounts_of_not_mem (n : String) (l : List (String × Float64))
    (m : GoMap Gauge) (k : String) (h : k ∉ l.map Prod.fst) :
    (applyCounts n l m).get? k = m.get? k := by
  induction l generalizing m with
  | nil => rfl
  | cons e t ih =>
    rw [List.map_cons, List.mem_cons, not_or] at h
    show (applyCounts n t (setLabeled n m e.1 e.2)).get? k = m.get? k
    rw [ih _ h.2, get?_setLabeled_ne n m e.2 h.1]

theorem get?_applyCounts_of_mem (n : String) (l : List (String × Float64))
    (m : GoMap Gauge) (k : String) (v : Float64) (nd : (l.map Prod.fst).Nodup)
    (h : (k, v) ∈ l) :
    (applyCounts n l m).get? k
      = some (((m.get? k).getD
          (newGauge n "Number of request handled by Traefik" [("statusCode", k)])).Set v) := by
  induction l generalizing m with
  | nil => simp at h
  | cons e t ih =>
    rw [List.map_cons, List.nodup_cons] at nd
    show (applyCounts n t (setLabeled n m e.1 e.2)).get? k = _
    rcases List.mem_cons.1 h with h1 | h1
    · subst h1
      rw [get?_applyCounts_of_not_mem n t _ k nd.1, get?_setLabeled_self]
    · have hne : k ≠ e.1 := by
        intro hk
        exact nd.1 (hk ▸ List.mem_map.2 ⟨(k, v), h1, rfl⟩)
      rw [ih _ nd.2 h1, get?_setLabeled_ne n m e.2 hne]

theorem mem_keys_applyCounts (n : String) (l : List (String × Float64)) (m : GoMap Gauge)
    (x : String) : x ∈ (applyCounts n l m).keys ↔ x ∈ m.keys ∨ x ∈ l.map Prod.fst := by
  induction l generalizing m with
  | nil => simp [applyCounts]
  | cons e t ih =>
    show x ∈ (applyCounts n t (setLabeled n m e.1 e.2)).keys ↔ _
    rw [ih, mem_keys_setLabeled, List.map_cons, List.mem_cons]
    tauto

theorem get?_resetCurrent_of_not_mem (l : List (String × Gauge)) (m : GoMap Gauge)
    (k : String) (h : k ∉ l.map Prod.fst) : (resetCurrent l m).get? k = m.get? k := by
  induction l generalizing m with
  | nil => rfl
  | cons e t ih =>
    rw [List.map_cons, List.mem_cons, not_or] at h
    show (resetCurrent t (m.set e.1 (e.2.Set Float64.zero))).get? k = m.get? k
    rw [ih _ h.2, GoMap.get?_set_ne m _ h.1]

theorem get?_resetCurrent_of_mem (l : List (String × Gauge)) (m : GoMap Gauge)
    (k : String) (g : Gauge) (nd : (l.map Prod.fst).Nodup) (h : (k, g) ∈ l) :
    (resetCurrent l m).get? k = some (g.Set Float64.zero) := by
  induction l generalizing m with
  | nil => simp at h
  | cons e t ih =>
    rw [List.map_cons, List.nodup_cons] at nd
    show (resetCurrent t (m.set e.1 (e.2.Set Float64.zero))).get? k = _
    rcases List.mem_cons.1 h with h1 | h1
    · subst h1
      rw [get?_resetCurrent_of_not_mem t _ k nd.1, GoMap.get?_set_self]
    · exact ih _ nd.2 h1

theorem mem_keys_resetCurrent (l : List (String × Gauge)) (m : GoMap Gauge) (x : String) :
    x ∈ (resetCurrent l m).keys ↔ x ∈ m.keys ∨ x ∈ l.map Prod.fst := by
  induction l generalizing m with
  | nil => simp [resetCurrent]
  | cons e t ih =>
    show x ∈ (resetCurrent t (m.set e.1 (e.2.Set Float64.zero))).keys ↔ _
    rw [ih, GoMap.mem_keys_set, List.map_cons, List.mem_cons]
    tauto

/-! ## What a `range` visits -/

theorem RangeOrder.mem_visit (ρ : RangeOrder) (site : Nat) {α : Type}
    (l : List (String × α)) (e : String × α) : e ∈ ρ.visit site l ↔ e ∈ l :=
  (ρ.perm site l).mem_iff

theorem RangeOrder.mem_keys_visit (ρ : RangeOrder) (site : Nat) {α : Type}
    (l : List (String × α)) (k : String) :
    k ∈ (ρ.visit site l).map Prod.fst ↔ k ∈ l.map Prod.fst :=
  ((ρ.perm site l).map Prod.fst).mem_iff

theorem RangeOrder.nodup_keys_visit (ρ : RangeOrder) (site : Nat) {α : Type}
    (l : List (String × α)) (nd : (l.map Prod.fst).Nodup) :
    ((ρ.visit site l).map Prod.fst).Nodup :=
  ((ρ.perm site l).map Prod.fst).nodup_iff.2 nd

/-- The current-count map after the reset loop: same keys, every gauge at zero. -/
theorem get?_resetCurrent_visit (ρ : RangeOrder) (site : Nat) (m : GoMap Gauge)
    (k : String) :
    (resetCurrent (ρ.visit site m.entries) m).get? k
      = (m.get? k).map (fun g => g.Set Float64.zero) := by
  cases h : m.get? k with
  | none =>
    rw [get?_resetCurrent_of_not_mem _ _ _ ?_, h]
    · rfl
    · rw [ρ.mem_keys_visit]
      exact (m.get?_eq_none_iff k).1 h
  | some g =>
    rw [get?_resetCurrent_of_mem _ _ k g (ρ.nodup_keys_visit site _ m.nodup)
      ((ρ.mem_visit site _ _).2 (m.mem_of_get? h))]
    rfl

theorem mem_keys_resetCurrent_visit (ρ : RangeOrder) (site : Nat) (m : GoMap Gauge)
    (x : String) : x ∈ (resetCurrent (ρ.visit site m.entries) m).keys ↔ x ∈ m.keys := by
  rw [mem_keys_resetCurrent, ρ.mem_keys_visit]
  exact or_self_iff

/-! ## Unfolding one cycle -/

theorem scrape_healthy (ρ : RangeOrder) (c : Int) (data : traefikHealth) (s : Globals)
    (h1 : 200 ≤ c) (h2 : c < 300) :
    scrape ρ (.resp c (.ok data)) s = (afterHealthy ρ data s, none) := by
  simp [scrape, afterHealthy, h1, h2]

theorem scrape_failing (ρ : RangeOrder) (get : GetResult) (s : Globals)
    (h : get.failing) : ∃ e, scrape ρ get s = (s, some e) := by
  cases get with
  | err msg => exact ⟨_, rfl⟩
  | resp c decoded =>
    by_cases hc : c ≥ 200 ∧ c < 300
    · cases decoded with
      | error e =>
        exact ⟨"Can\x27t scrape Traefik: json.Unmarshal " ++ e, by simp [scrape, hc]⟩
      | ok data => exact absurd hc h
    · exact ⟨"Can\x27t scrape Traefik: status " ++ toString c, by simp [scrape, hc]⟩

theorem Collect_healthy (ρ : RangeOrder) (c : Int) (data : traefikHealth) (s : Globals)
    (h1 : 200 ≤ c) (h2 : c < 300) :
    Collect ρ (.resp c (.ok data)) s
      = { globals := afterHealthy ρ data s,
          ch := [(afterHealthy ρ data s).traefik_up, (afterHealthy ρ data s).metric_uptime,
                 (afterHealthy ρ data s).metric_request_response_time_total,
                 (afterHealthy ρ data s).metric_request_response_time_avg]
                ++ (ρ.visit 142
                      (afterHealthy ρ data s).metric_request_status_count_current.entries).map
                    Prod.snd
                ++ (ρ.visit 145
                      (afterHealthy ρ data s).metric_request_status_count_total.entries).map
                    Prod.snd,
          logged := none } := by
  simp only [Collect, scrape_healthy ρ c data s h1 h2]

theorem Collect_failing (ρ : RangeOrder) (get : GetResult) (s : Globals)
    (h : get.failing) :
    ∃ e, Collect ρ get s
      = { globals := { s with traefik_up := s.traefik_up.Set Float64.zero },
          ch := [s.traefik_up.Set Float64.zero],
          logged := some e } := by
  obtain ⟨e, he⟩ := scrape_failing ρ get s h
  exact ⟨e, by simp only [Collect, he]⟩

/-- The gauge found under `k` after the loop of line 176 or 184 has run over the count
map `d`: set to `d[k]` (created first when missing) for a key of `d`, untouched
otherwise. -/
theorem get?_applyCounts_visit (ρ : RangeOrder) (site : Nat) (n : String)
    (d : GoMap Float64) (m : GoMap Gauge) (k : String) :
    (applyCounts n (ρ.visit site d.entries) m).get? k
      = match d.get? k with
        | some v =>
          some (((m.get? k).getD
            (newGauge n "Number of request handled by Traefik" [("statusCode", k)])).Set v)
        | none => m.get? k := by
  cases h : d.get? k with
  | none =>
    apply get?_applyCounts_of_not_mem
    rw [ρ.mem_keys_visit]
    exact (d.get?_eq_none_iff k).1 h
  | some v =>
    exact get?_applyCounts_of_mem n _ m k v (ρ.nodup_keys_visit site _ d.nodup)
      ((ρ.mem_visit site _ _).2 (d.mem_of_get? h))

theorem mem_keys_applyCounts_visit (ρ : RangeOrder) (site : Nat) (n : String)
    (d : GoMap Float64) (m : GoMap Gauge) (x : String) :
    x ∈ (applyCounts n (ρ.visit site d.entries) m).keys ↔ x ∈ m.keys ∨ x ∈ d.keys := by
  rw [mem_keys_applyCounts, ρ.mem_keys_visit]
  rfl

/-! ## Failing cycles -/

/-- C10: a failing cycle changes nothing but the liveness flag: the uptime, total and
average response-time gauges and both label-keyed maps are what they were before. -/
theorem collect_failing_frame (ρ : RangeOrder) (get : GetResult) (s : Globals)
    (h : get.failing) :
    (Collect ρ get s).globals.metric_uptime = s.metric_uptime
    ∧ (Collect ρ get s).globals.metric_request_response_time_total
        = s.metric_request_response_time_total
    ∧ (Collect ρ get s).globals.metric_request_response_time_avg
        = s.metric_request_response_time_avg
    ∧ (Collect ρ get s).globals.metric_request_status_count_current
        = s.metric_request_status_count_current
    ∧ (Collect ρ get s).globals.metric_request_status_count_total
        = s.metric_request_status_count_total := by
  obtain ⟨e, he⟩ := Collect_failing ρ get s h
  rw [he]
  exact ⟨rfl, rfl, rfl, rfl, rfl⟩

/-! ## Healthy cycles -/

/-- C6: after a healthy cycle the three fixed gauges hold the fields of the record,
whatever they held before: uptime, total response time and average response time. -/
theorem collect_healthy_fixed_gauges (ρ : RangeOrder) (c : Int) (r : traefikHealth)
    (s : Globals) (h1 : 200 ≤ c) (h2 : c < 300) :
    (Collect ρ (.resp c (.ok r)) s).globals.metric_uptime.val = r.UpTimeSec
    ∧ (Collect ρ (.resp c (.ok r)) s).globals.metric_request_response_time_total.val
        = r.TotalResponseTimeSec
    ∧ (Collect ρ (.resp c (.ok r)) s).globals.metric_request_response_time_avg.val
        = r.AverageResponseTimeSec := by
  rw [Collect_healthy ρ c r s h1 h2]
  exact ⟨rfl, rfl, rfl⟩

/-- C2: after a healthy cycle every key of the record's current counts has a
current-count gauge reading exactly the count of the record, and every current-count
gauge from before whose key the record lacks is still there and reads 0. -/
theorem collect_healthy_current_counts (ρ : RangeOrder) (c : Int) (r : traefikHealth)
    (s : Globals) (h1 : 200 ≤ c) (h2 : c < 300) :
    (∀ k v, r.StatusCodeCount.get? k = some v →
      ∃ g, (Collect ρ (.resp c (.ok r)) s).globals.metric_request_status_count_current.get? k
          = some g ∧ g.val = v)
    ∧ (∀ k g, s.metric_request_status_count_current.get? k = some g →
        r.StatusCodeCount.get? k = none →
        (Collect ρ (.resp c (.ok r)) s).globals.metric_request_status_count_current.get? k
          = some (g.Set Float64.zero)) := by
  rw [Collect_healthy ρ c r s h1 h2]
  constructor
  · intro k v hk
    have hpost := get?_applyCounts_visit ρ 176 "request_count_current" r.StatusCodeCount
      (resetCurrent (ρ.visit 173 s.metric_request_status_count_current.entries)
        s.metric_request_status_count_current) k
    rw [hk] at hpost
    exact ⟨_, hpost, rfl⟩
  · intro k g hg hk
    show (applyCounts _ _ _).get? k = _
    rw [get?_applyCounts_visit, hk]
    show (resetCurrent _ _).get? k = _
    rw [get?_resetCurrent_visit, hg]
    rfl

/-- C3: after a healthy cycle every total-count gauge whose key the record's total
counts lack is still in the map, unchanged (never zeroed), and every key of the record's
total counts has a total-count gauge reading exactly the count of the record. -/
theorem collect_healthy_total_counts (ρ : RangeOrder) (c : Int) (r : traefikHealth)
    (s : Globals) (h1 : 200 ≤ c) (h2 : c < 300) :
    (∀ k g, s.metric_request_status_count_total.get? k = some g →
      r.TotalStatusCodeCount.get? k = none →
      (Collect ρ (.resp c (.ok r)) s).globals.metric_request_status_count_total.get? k
        = some g)
    ∧ (∀ k v, r.TotalStatusCodeCount.get? k = some v →
        ∃ g, (Collect ρ (.resp c (.ok r)) s).globals.metric_request_status_count_total.get? k
            = some g ∧ g.val = v) := by
  rw [Collect_healthy ρ c r s h1 h2]
  constructor
  · intro k g hg hk
    show (applyCounts _ _ _).get? k = _
    rw [get?_applyCounts_visit, hk]
    exact hg
  · intro k v hk
    have hpost := get?_applyCounts_visit ρ 184 "request_count_total" r.TotalStatusCodeCount
      s.metric_request_status_count_total k
    rw [hk] at hpost
    exact ⟨_, hpost, rfl⟩

/-- C7: the two label-keyed maps are independent and never evict: after a healthy cycle
the keys of the current-count map are its keys from before together with the keys of the
record's current counts, and the keys of the total-count map are its keys from before
together with the keys of the record's total counts; so a status code that only the
record's total counts carry gets a total gauge and no current gauge, and the other way
round. -/
theorem collect_healthy_key_sets (ρ : RangeOrder) (c : Int) (r : traefikHealth)
    (s : Globals) (h1 : 200 ≤ c) (h2 : c < 300) :
    (Collect ρ (.resp c (.ok r)) s).globals.metric_request_status_count_current.keys.toFinset
      = s.metric_request_status_count_current.keys.toFinset
        ∪ r.StatusCodeCount.keys.toFinset
    ∧ (Collect ρ (.resp c (.ok r)) s).globals.metric_request_status_count_total.keys.toFinset
      = s.metric_request_status_count_total.keys.toFinset
        ∪ r.TotalStatusCodeCount.keys.toFinset
    ∧ (∀ k, k ∈ r.TotalStatusCodeCount.keys →
        k ∉ s.metric_request_status_count_current.keys → k ∉ r.StatusCodeCount.keys →
        k ∈ (Collect ρ (.resp c (.ok r)) s).globals.metric_request_status_count_total.keys
        ∧ k ∉ (Collect ρ (.resp c (.ok r)) s).globals.metric_request_status_count_current.keys)
    ∧ (∀ k, k ∈ r.StatusCodeCount.keys →
        k ∉ s.metric_request_status_count_total.keys → k ∉ r.TotalStatusCodeCount.keys →
        k ∈ (Collect ρ (.resp c (.ok r)) s).globals.metric_request_status_count_current.keys
        ∧ k ∉ (Collect ρ (.resp c (.ok r)) s).globals.metric_request_status_count_total.keys) := by
  rw [Collect_healthy ρ c r s h1 h2]
  have hcur : ∀ x, x ∈ (afterHealthy ρ r s).metric_request_status_count_current.keys
      ↔ x ∈ s.metric_request_status_count_current.keys ∨ x ∈ r.StatusCodeCount.keys := by
    intro x
    show x ∈ (applyCounts _ _ _).keys ↔ _
    rw [mem_keys_applyCounts_visit, mem_keys_resetCurrent_visit]
  have htot : ∀ x, x ∈ (afterHealthy ρ r s).metric_request_status_count_total.keys
      ↔ x ∈ s.metric_request_status_count_total.keys ∨ x ∈ r.TotalStatusCodeCount.keys := by
    intro x
    show x ∈ (applyCounts _ _ _).keys ↔ _
    rw [mem_keys_applyCounts_visit]
  refine ⟨?_, ?_, ?_, ?_⟩
  · ext x
    rw [Finset.mem_union, List.mem_toFinset, List.mem_toFinset, List.mem_toFinset]
    exact hcur x
  · ext x
    rw [Finset.mem_union, List.mem_toFinset, List.mem_toFinset, List.mem_toFinset]
    exact htot x
  · intro k hk hs hr
    exact ⟨(htot k).2 (Or.inr hk), fun hmem => (hcur k).1 hmem |>.elim hs hr⟩
  · intro k hk hs hr
    exact ⟨(hcur k).2 (Or.inr hk), fun hmem => (htot k).1 hmem |>.elim hs hr⟩

/-! ## Histories of cycles -/

theorem run_concat (cycles : List (RangeOrder × GetResult)) (c : RangeOrder × GetResult) :
    run (cycles ++ [c]) = (Collect c.1 c.2 (run cycles)).globals := by
  simp [run, List.foldl_append]

theorem healthy_or_failing (get : GetResult) : get.healthy ∨ get.failing := by
  cases get with
  | err msg => exact Or.inr trivial
  | resp c decoded =>
    cases decoded with
    | error e => exact Or.inr trivial
    | ok r => exact Classical.em (200 ≤ c ∧ c < 300)

theorem not_healthy_of_failing (get : GetResult) (h : get.failing) : ¬ get.healthy := by
  cases get with
  | err msg => exact fun hh => hh
  | resp c decoded =>
    cases decoded with
    | error e => exact fun hh => hh
    | ok r => exact h

theorem up_after_healthy (ρ : RangeOrder) (get : GetResult) (s : Globals)
    (h : get.healthy) : (Collect ρ get s).globals.traefik_up.val = Float64.one := by
  cases get with
  | err msg => exact absurd h (fun hh => hh)
  | resp c decoded =>
    cases decoded with
    | error e => exact absurd h (fun hh => hh)
    | ok r =>
      rw [Collect_healthy ρ c r s h.1 h.2]
      rfl

theorem up_after_failing (ρ : RangeOrder) (get : GetResult) (s : Globals)
    (h : get.failing) : (Collect ρ get s).globals.traefik_up.val = Float64.zero := by
  obtain ⟨e, he⟩ := Collect_failing ρ get s h
  rw [he]
  rfl

/-- C4: after any history of cycles from `init` the liveness gauge reads 0 or 1, and it
reads 1 exactly when there was a cycle and the latest one connected, got a 2xx status and
decoded; a healthy cycle leaves it at 1. -/
theorem liveness_tracks_latest_cycle (cycles : List (RangeOrder × GetResult)) :
    ((run cycles).traefik_up.val = Float64.zero ∨ (run cycles).traefik_up.val = Float64.one)
    ∧ ((run cycles).traefik_up.val = Float64.one
        ↔ ∃ c, cycles.getLast? = some c ∧ c.2.healthy)
    ∧ (∀ ρ get, GetResult.healthy get →
        (Collect ρ get (run cycles)).globals.traefik_up.val = Float64.one) := by
  have h01 : Float64.zero ≠ Float64.one := by decide
  refine ⟨?_, ?_, fun ρ get h => up_after_healthy ρ get _ h⟩
  · rcases List.eq_nil_or_concat cycles with hnil | ⟨cs, c, hc⟩
    · subst hnil
      exact Or.inl rfl
    · subst hc
      rw [List.concat_eq_append, run_concat]
      rcases healthy_or_failing c.2 with h | h
      · exact Or.inr (up_after_healthy _ _ _ h)
      · exact Or.inl (up_after_failing _ _ _ h)
  · rcases List.eq_nil_or_concat cycles with hnil | ⟨cs, c, hc⟩
    · subst hnil
      constructor
      · intro h
        exact absurd h h01
      · rintro ⟨c, hc, _⟩
        simp at hc
    · subst hc
      rw [List.concat_eq_append, run_concat, List.getLast?_append, List.getLast?_singleton]
      constructor
      · intro h
        rcases healthy_or_failing c.2 with hh | hh
        · exact ⟨c, rfl, hh⟩
        · rw [up_after_failing _ _ _ hh] at h
          exact absurd h h01
      · rintro ⟨c2, hc2, hh⟩
        simp at hc2
        subst hc2
        exact up_after_healthy _ _ _ hh

/-! ## The status check of `scrape` -/

/-- C5: for a response received without a transport error, `scrape` returns the status
error exactly when the status code is outside 200..299, and its text carries the code;
for a code inside 200..299 the outcome is that of the JSON decoding alone. -/
theorem scrape_status_check (ρ : RangeOrder) (c : Int) (decoded : Except String traefikHealth)
    (s : Globals) :
    ((scrape ρ (.resp c decoded) s).2
        = some ("Can\x27t scrape Traefik: status " ++ toString c)
      ↔ ¬ (200 ≤ c ∧ c < 300))
    ∧ (200 ≤ c ∧ c < 300 →
        (scrape ρ (.resp c decoded) s).2
          = match decoded with
            | .error e => some ("Can\x27t scrape Traefik: json.Unmarshal " ++ e)
            | .ok _ => none) := by
  have hin : 200 ≤ c ∧ c < 300 →
      (scrape ρ (.resp c decoded) s).2
        = match decoded with
          | .error e => some ("Can\x27t scrape Traefik: json.Unmarshal " ++ e)
          | .ok _ => none := by
    intro hc
    cases decoded with
    | error e => simp [scrape, hc]
    | ok r => simp [scrape, hc]
  refine ⟨⟨?_, ?_⟩, hin⟩
  · intro h hc
    rw [hin hc] at h
    cases decoded with
    | error e =>
      have h2 := congrArg (fun o => o.map (fun t => (String.data t).get? 22)) h
      simp [String.data_append] at h2
    | ok r => simp at h
  · intro hc
    simp [scrape, hc]

/-! ## Descriptors -/

theorem init_described : init.Described :=
  ⟨rfl, rfl, rfl, rfl, fun k g h => by simp [init, Globals.declared, GoMap.get?, GoMap.empty] at h,
    fun k g h => by simp [init, Globals.declared, GoMap.get?, GoMap.empty] at h⟩

theorem applyCounts_described (ρ : RangeOrder) (site : Nat) (n : String)
    (d : GoMap Float64) (m : GoMap Gauge)
    (hm : ∀ k g, m.get? k = some g →
      g.desc = (newGauge n "Number of request handled by Traefik" [("statusCode", k)]).desc)
    (k : String) (g : Gauge)
    (hg : (applyCounts n (ρ.visit site d.entries) m).get? k = some g) :
    g.desc = (newGauge n "Number of request handled by Traefik" [("statusCode", k)]).desc := by
  rw [get?_applyCounts_visit] at hg
  cases hd : d.get? k with
  | none =>
    rw [hd] at hg
    exact hm k g hg
  | some v =>
    rw [hd] at hg
    cases hmk : m.get? k with
    | none =>
      rw [hmk] at hg
      cases hg
      rfl
    | some g0 =>
      rw [hmk] at hg
      cases hg
      exact hm k g0 hmk

theorem Collect_described (ρ : RangeOrder) (get : GetResult) (s : Globals)
    (h : s.Described) : (Collect ρ get s).globals.Described := by
  obtain ⟨hup, hut, htt, hta, hcur, htot⟩ := h
  rcases healthy_or_failing get with hh | hf
  · cases get with
    | err msg => exact absurd hh (fun x => x)
    | resp c decoded =>
      cases decoded with
      | error e => exact absurd hh (fun x => x)
      | ok r =>
        rw [Collect_healthy ρ c r s hh.1 hh.2]
        refine ⟨hup, hut, htt, hta, ?_, ?_⟩
        · intro k g hg
          refine applyCounts_described ρ 176 _ r.StatusCodeCount _ ?_ k g hg
          intro k2 g2 hg2
          rw [get?_resetCurrent_visit] at hg2
          cases hs : s.metric_request_status_count_current.get? k2 with
          | none => rw [hs] at hg2; cases hg2
          | some g0 =>
            rw [hs] at hg2
            cases hg2
            exact hcur k2 g0 hs
        · intro k g hg
          exact applyCounts_described ρ 184 _ r.TotalStatusCodeCount _ htot k g hg
  · obtain ⟨e, he⟩ := Collect_failing ρ get s hf
    rw [he]
    exact ⟨hup, hut, htt, hta, hcur, htot⟩

theorem run_described (cycles : List (RangeOrder × GetResult)) : (run cycles).Described := by
  induction cycles using List.reverseRecOn with
  | nil => exact init_described
  | append_singleton cs c ih =>
    rw [run_concat]
    exact Collect_described c.1 c.2 _ ih

/-- C1: whatever the globals hold (also after earlier healthy cycles) and whatever the
failing outcome (transport error, status outside 2xx, decode error), `Collect` sends
exactly one metric, the gauge `traefik_up`, and it reads 0; after any history of cycles
that metric is the gauge declared under the name `up`, at 0. -/
theorem collect_failing_sends_only_up_at_zero (ρ : RangeOrder) (get : GetResult)
    (s : Globals) (h : get.failing) :
    (Collect ρ get s).ch = [(Collect ρ get s).globals.traefik_up]
    ∧ (Collect ρ get s).ch.length = 1
    ∧ (Collect ρ get s).globals.traefik_up.val = Float64.zero
    ∧ (Collect ρ get s).globals.traefik_up.Desc = s.traefik_up.Desc
    ∧ (∀ cycles, s = run cycles →
        (Collect ρ get s).ch = [(newGauge "up" "Is traefik up ?" []).Set Float64.zero]) := by
  obtain ⟨e, he⟩ := Collect_failing ρ get s h
  rw [he]
  refine ⟨rfl, rfl, rfl, rfl, ?_⟩
  intro cycles hs
  have hd : s.traefik_up.desc = Globals.declared.traefik_up.desc :=
    (hs ▸ run_described cycles).1
  show [s.traefik_up.Set Float64.zero] = _
  simp only [Gauge.Set, hd]
  rfl

/-- The descriptors a `range` over a described map sends: one per key, built from the
key. -/
theorem descs_visit (ρ : RangeOrder) (site : Nat) (n : String) (m : GoMap Gauge)
    (hm : ∀ k g, m.get? k = some g →
      g.desc = (newGauge n "Number of request handled by Traefik" [("statusCode", k)]).desc) :
    ((ρ.visit site m.entries).map Prod.snd).map Gauge.Desc
      = ((ρ.visit site m.entries).map Prod.fst).map
          (fun k => (newGauge n "Number of request handled by Traefik"
            [("statusCode", k)]).desc) := by
  rw [List.map_map, List.map_map]
  apply List.map_congr_left
  intro e he
  exact hm e.1 e.2 (m.get?_of_mem ((ρ.mem_visit site _ _).1 he))

theorem nodup_all_descs (kc kt : List String) (hc : kc.Nodup) (ht : kt.Nodup) :
    ([Globals.declared.traefik_up.desc, Globals.declared.metric_uptime.desc,
      Globals.declared.metric_request_response_time_total.desc,
      Globals.declared.metric_request_response_time_avg.desc]
      ++ kc.map (fun k => (newGauge "request_count_current"
            "Number of request handled by Traefik" [("statusCode", k)]).desc)
      ++ kt.map (fun k => (newGauge "request_count_total"
            "Number of request handled by Traefik" [("statusCode", k)]).desc)).Nodup := by
  have inj : ∀ n : String, Function.Injective
      (fun k => (newGauge n "Number of request handled by Traefik"
        [("statusCode", k)]).desc) := by
    intro n a b hab
    simp only [newGauge, Desc.mk.injEq, List.cons.injEq, Prod.mk.injEq] at hab
    exact hab.2.2.1.2
  have hfix : ∀ d ∈ [Globals.declared.traefik_up.desc, Globals.declared.metric_uptime.desc,
      Globals.declared.metric_request_response_time_total.desc,
      Globals.declared.metric_request_response_time_avg.desc],
      d.fqName ≠ "traefik_request_count_current"
      ∧ d.fqName ≠ "traefik_request_count_total" := by decide
  have hcur : BuildFQName metricNamespace "" "request_count_current"
      = "traefik_request_count_current" := by decide
  have htot : BuildFQName metricNamespace "" "request_count_total"
      = "traefik_request_count_total" := by decide
  have hne : "traefik_request_count_current" ≠ "traefik_request_count_total" := by decide
  rw [List.nodup_append, List.nodup_append]
  refine ⟨⟨by decide, hc.map (inj _), ?_⟩, ht.map (inj _), ?_⟩
  · intro d hd1 hd2
    obtain ⟨k, _, rfl⟩ := List.mem_map.1 hd2
    exact (hfix _ hd1).1 hcur
  · intro d hd1 hd2
    obtain ⟨k, _, rfl⟩ := List.mem_map.1 hd2
    rcases List.mem_append.1 hd1 with hd1 | hd1
    · exact (hfix _ hd1).2 htot
    · obtain ⟨k2, _, hk2⟩ := List.mem_map.1 hd1
      have h3 : BuildFQName metricNamespace "" "request_count_current"
          = BuildFQName metricNamespace "" "request_count_total" :=
        congrArg Desc.fqName hk2
      rw [hcur, htot] at h3
      exact hne h3

/-! ## What a healthy cycle sends -/

/-- C8: a healthy cycle sends the four fixed gauges first (up, uptime, total response
time, average response time), then every gauge of the current-count map as the cycle left
it, then every gauge of the total-count map as the cycle left it, so 4 + |current| +
|total| metrics; after any history of cycles no descriptor is sent twice. -/
theorem collect_healthy_sends_each_gauge_once (ρ : RangeOrder) (c : Int)
    (r : traefikHealth) (s : Globals) (h1 : 200 ≤ c) (h2 : c < 300) :
    (Collect ρ (.resp c (.ok r)) s).ch
      = [(Collect ρ (.resp c (.ok r)) s).globals.traefik_up,
         (Collect ρ (.resp c (.ok r)) s).globals.metric_uptime,
         (Collect ρ (.resp c (.ok r)) s).globals.metric_request_response_time_total,
         (Collect ρ (.resp c (.ok r)) s).globals.metric_request_response_time_avg]
        ++ (ρ.visit 142
              (Collect ρ (.resp c (.ok r)) s).globals.metric_request_status_count_current.entries).map
            Prod.snd
        ++ (ρ.visit 145
              (Collect ρ (.resp c (.ok r)) s).globals.metric_request_status_count_total.entries).map
            Prod.snd
    ∧ ((ρ.visit 142
          (Collect ρ (.resp c (.ok r)) s).globals.metric_request_status_count_current.entries).map
        Prod.snd).Perm
        ((Collect ρ (.resp c (.ok r)) s).globals.metric_request_status_count_current.entries.map
          Prod.snd)
    ∧ ((ρ.visit 145
          (Collect ρ (.resp c (.ok r)) s).globals.metric_request_status_count_total.entries).map
        Prod.snd).Perm
        ((Collect ρ (.resp c (.ok r)) s).globals.metric_request_status_count_total.entries.map
          Prod.snd)
    ∧ (Collect ρ (.resp c (.ok r)) s).ch.length
        = 4 + (Collect ρ (.resp c (.ok r)) s).globals.metric_request_status_count_current.entries.length
          + (Collect ρ (.resp c (.ok r)) s).globals.metric_request_status_count_total.entries.length
    ∧ (∀ cycles, s = run cycles →
        ((Collect ρ (.resp c (.ok r)) s).ch.map Gauge.Desc).Nodup) := by
  have hd : s.Described → (Collect ρ (.resp c (.ok r)) s).globals.Described :=
    Collect_described ρ _ s
  rw [Collect_healthy ρ c r s h1 h2] at hd ⊢
  refine ⟨rfl, (ρ.perm 142 _).map _, (ρ.perm 145 _).map _, ?_, ?_⟩
  · simp only [List.length_append, List.length_map, List.length_cons, List.length_nil,
      (ρ.perm 142 _).length_eq, (ρ.perm 145 _).length_eq]
  · intro cycles hs
    obtain ⟨hup, hut, htt, hta, hcur, htot⟩ := hd (hs ▸ run_described cycles)
    simp only [List.map_append, List.map_cons, List.map_nil]
    rw [descs_visit ρ 142 _ _ hcur, descs_visit ρ 145 _ _ htot]
    simp only [Gauge.Desc]
    rw [hup, hut, htt, hta]
    exact nodup_all_descs _ _ (ρ.nodup_keys_visit 142 _ (GoMap.nodup _))
      (ρ.nodup_keys_visit 145 _ (GoMap.nodup _))

/-! ## `Describe` against `Collect` -/

/-- C9, at the failing input: from `init` a healthy scrape reporting status code 200 makes
`Collect` send a gauge whose descriptor `Describe` does not send in `init`. -/
theorem describe_omits_gauge_of_new_status_code :
    ∃ g ∈ (Collect RangeOrder.stored firstScrape (run [])).ch,
      g.Desc ∉ Describe RangeOrder.stored (run []) :=
  ⟨(newGauge "request_count_current" "Number of request handled by Traefik"
      [("statusCode", "200")]).Set five, by decide, by decide⟩

/-! ## The scenarios of the specification -/

/-- After a healthy first scrape, an upstream answering 503 makes `Collect` send the
gauge `traefik_up` at 0 and nothing else. -/
theorem collect_failing_sends_only_up_at_zero_witness :
    unavailable.failing
    ∧ (Collect RangeOrder.stored unavailable (run [(RangeOrder.stored, firstScrape)])).ch
        = [{ desc := { fqName := "traefik_up", help := "Is traefik up ?", constLabels := [] },
             val := Float64.zero }] :=
  ⟨by decide,
   ((collect_failing_sends_only_up_at_zero RangeOrder.stored unavailable
      (run [(RangeOrder.stored, firstScrape)]) (by decide)).1).trans (by decide)⟩

/-- After a healthy first scrape, an upstream answering 503 leaves the 200 gauges of both
maps and the uptime gauge as the first scrape set them. -/
theorem collect_failing_frame_witness :
    unavailable.failing
    ∧ (Collect RangeOrder.stored unavailable
        (run [(RangeOrder.stored, firstScrape)])).globals.metric_uptime.val = five
    ∧ ((Collect RangeOrder.stored unavailable
        (run [(RangeOrder.stored, firstScrape)])).globals.metric_request_status_count_current.get?
          "200").map Gauge.val = some five
    ∧ ((Collect RangeOrder.stored unavailable
        (run [(RangeOrder.stored, firstScrape)])).globals.metric_request_status_count_total.get?
          "200").map Gauge.val = some hundred :=
  have h := collect_failing_frame RangeOrder.stored unavailable
    (run [(RangeOrder.stored, firstScrape)]) (by decide)
  ⟨by decide, by rw [h.1]; decide, by rw [h.2.2.2.1]; decide, by rw [h.2.2.2.2]; decide⟩

/-- A healthy scrape with uptime 5, total response time 100 and average response time 1
leaves exactly these readings in the three fixed gauges. -/
theorem collect_healthy_fixed_gauges_witness :
    (200 : Int) ≤ 204 ∧ (204 : Int) < 300
    ∧ (Collect RangeOrder.backwards (.resp 204 (.ok secondHealth))
        (run [(RangeOrder.stored, unavailable)])).globals.metric_uptime.val = five
    ∧ (Collect RangeOrder.backwards (.resp 204 (.ok secondHealth))
        (run [(RangeOrder.stored, unavailable)])).globals.metric_request_response_time_total.val
        = hundred
    ∧ (Collect RangeOrder.backwards (.resp 204 (.ok secondHealth))
        (run [(RangeOrder.stored, unavailable)])).globals.metric_request_response_time_avg.val
        = Float64.one :=
  ⟨by decide, by decide,
   collect_healthy_fixed_gauges RangeOrder.backwards 204 secondHealth
     (run [(RangeOrder.stored, unavailable)]) (by decide) (by decide)⟩

/-- The scenario of the specification: a scrape with current counts 200 -> 5, then one
with 404 -> 1, leaves the 404 gauge at 1 and the 200 gauge present at 0. -/
theorem collect_healthy_current_counts_witness :
    (200 : Int) ≤ 200 ∧ (200 : Int) < 300
    ∧ (∃ g, (Collect RangeOrder.backwards (.resp 200 (.ok secondHealth))
          (run [(RangeOrder.stored, firstScrape)])).globals.metric_request_status_count_current.get?
            "404" = some g ∧ g.val = Float64.one)
    ∧ (Collect RangeOrder.backwards (.resp 200 (.ok secondHealth))
        (run [(RangeOrder.stored, firstScrape)])).globals.metric_request_status_count_current.get?
          "200"
        = some (((newGauge "request_count_current" "Number of request handled by Traefik"
            [("statusCode", "200")]).Set five).Set Float64.zero) :=
  ⟨by decide, by decide,
   (collect_healthy_current_counts RangeOrder.backwards 200 secondHealth
      (run [(RangeOrder.stored, firstScrape)]) (by decide) (by decide)).1
      "404" Float64.one (by decide),
   (collect_healthy_current_counts RangeOrder.backwards 200 secondHealth
      (run [(RangeOrder.stored, firstScrape)]) (by decide) (by decide)).2
      "200" _ (by decide) (by decide)⟩

/-- The scenario of the specification: a scrape with total counts 200 -> 100, then one
with an empty total map, leaves the 200 total gauge at 100. -/
theorem collect_healthy_total_counts_witness :
    (200 : Int) ≤ 200 ∧ (200 : Int) < 300
    ∧ (Collect RangeOrder.stored (.resp 200 (.ok secondHealth))
        (run [(RangeOrder.stored, firstScrape)])).globals.metric_request_status_count_total.get?
          "200"
        = some ((newGauge "request_count_total" "Number of request handled by Traefik"
            [("statusCode", "200")]).Set hundred) :=
  ⟨by decide, by decide,
   (collect_healthy_total_counts RangeOrder.stored 200 secondHealth
      (run [(RangeOrder.stored, firstScrape)]) (by decide) (by decide)).1
      "200" _ (by decide) (by decide)⟩

/-- After current counts for 200 and totals for 200, a scrape with a current count for
404 and no totals leaves the current-count map with keys 200 and 404 and the total-count
map with key 200 alone: 404 gets no total gauge. -/
theorem collect_healthy_key_sets_witness :
    (200 : Int) ≤ 200 ∧ (200 : Int) < 300
    ∧ (Collect RangeOrder.stored (.resp 200 (.ok secondHealth))
        (run [(RangeOrder.stored, firstScrape)])).globals.metric_request_status_count_current.keys.toFinset
        = {"200", "404"}
    ∧ (Collect RangeOrder.stored (.resp 200 (.ok secondHealth))
        (run [(RangeOrder.stored, firstScrape)])).globals.metric_request_status_count_total.keys.toFinset
        = {"200"}
    ∧ "404" ∉ (Collect RangeOrder.stored (.resp 200 (.ok secondHealth))
        (run [(RangeOrder.stored, firstScrape)])).globals.metric_request_status_count_total.keys :=
  have h := collect_healthy_key_sets RangeOrder.stored 200 secondHealth
    (run [(RangeOrder.stored, firstScrape)]) (by decide) (by decide)
  ⟨by decide, by decide, h.1.trans (by decide), h.2.1.trans (by decide),
   (h.2.2.2 "404" (by decide) (by decide) (by decide)).2⟩

/-- After a first healthy scrape, a second one sends 4 + 2 + 1 metrics with pairwise
distinct descriptors. -/
theorem collect_healthy_sends_each_gauge_once_witness :
    (200 : Int) ≤ 200 ∧ (200 : Int) < 300
    ∧ (Collect RangeOrder.backwards (.resp 200 (.ok secondHealth))
        (run [(RangeOrder.stored, firstScrape)])).ch.length = 7
    ∧ ((Collect RangeOrder.backwards (.resp 200 (.ok secondHealth))
        (run [(RangeOrder.stored, firstScrape)])).ch.map Gauge.Desc).Nodup :=
  have h := collect_healthy_sends_each_gauge_once RangeOrder.backwards 200 secondHealth
    (run [(RangeOrder.stored, firstScrape)]) (by decide) (by decide)
  ⟨by decide, by decide, h.2.2.2.1.trans (by decide), h.2.2.2.2 _ rfl⟩

/-- A failing cycle after a healthy one leaves the liveness gauge at 0, and a healthy
cycle after that puts it back to 1. -/
theorem liveness_tracks_latest_cycle_witness :
    (run [(RangeOrder.stored, firstScrape), (RangeOrder.stored, unavailable)]).traefik_up.val
        ≠ Float64.one
    ∧ firstScrape.healthy
    ∧ (Collect RangeOrder.stored firstScrape
        (run [(RangeOrder.stored, firstScrape),
              (RangeOrder.stored, unavailable)])).globals.traefik_up.val = Float64.one :=
  have h := liveness_tracks_latest_cycle
    [(RangeOrder.stored, firstScrape), (RangeOrder.stored, unavailable)]
  ⟨fun hup => by
      obtain ⟨c, hc, hh⟩ := h.2.1.1 hup
      cases hc
      exact absurd hh (by decide),
   by decide, h.2.2 RangeOrder.stored firstScrape (by decide)⟩

/-- A 503 answer gives the status error with the code in its text, and a 200 answer whose
body does not decode gives the decoder error. -/
theorem scrape_status_check_witness :
    (scrape RangeOrder.stored (.resp 503 (.error "EOF")) init).2
        = some "Can\x27t scrape Traefik: status 503"
    ∧ (scrape RangeOrder.stored (.resp 200 (.error "EOF")) init).2
        = some "Can\x27t scrape Traefik: json.Unmarshal EOF" :=
  ⟨((scrape_status_check RangeOrder.stored 503 (.error "EOF") init).1.2 (by decide)).trans
      (by decide),
   ((scrape_status_check RangeOrder.stored 200 (.error "EOF") init).2 (by decide)).trans
      (by decide)⟩

end TraefikExporter
